import Mathlib

/-!
Verification development for `batch_callflow_to_md.py`, a converter from a
node-and-edge call-flow diagram mini-language to a structured Markdown summary.

The Python source is embedded shallowly below: strings are `String` / `List Char`,
Python dicts become insertion-ordered association lists with overwrite-in-place,
regular-expression matching is implemented by a small backtracking matcher over
the exact character-class/quantifier items of the script's patterns, and the
per-document pipeline (whose only failure point is the absence of a diagram code
block) is a function into `Except`.
-/

namespace CallFlow

/-- Python `\s` / `str.strip()` whitespace characters (ASCII range; the inputs
considered here are ASCII). -/
def isPySpace (c : Char) : Bool :=
  c == ' ' || c == '\t' || c == '\n' || c == '\r' || c == '\x0b' || c == '\x0c'

/-- Python `str.strip()`: remove leading and trailing whitespace. -/
def pyStrip (s : List Char) : List Char :=
  ((s.dropWhile isPySpace).reverse.dropWhile isPySpace).reverse

/-- Does `hay` start with `ns`? (Helper for substring containment.) -/
def listStartsWith : List Char → List Char → Bool
  | [], _ => true
  | _ :: _, [] => false
  | n :: ns, h :: hs => n == h && listStartsWith ns hs

/-- Python's substring test `needle in hay`. -/
def listContainsSub (needle : List Char) : List Char → Bool
  | [] => listStartsWith needle []
  | h :: t => listStartsWith needle (h :: t) || listContainsSub needle t

/-- Python `needle in hay` on `String`s (case-sensitive, as in the source). -/
def strContains (hay needle : String) : Bool :=
  listContainsSub needle.data hay.data

/-- Python `str.lower()` (ASCII letters; the labels considered here are ASCII). -/
def pyLower (s : String) : String :=
  ⟨s.data.map Char.toLower⟩

/-- Python `str.isdigit()` for ASCII digit strings: nonempty and all digits. -/
def pyIsDigitStr (s : String) : Bool :=
  !s.data.isEmpty && s.data.all Char.isDigit

/-- Python `int(s)` on a digit string. -/
def strToNat (s : String) : Nat :=
  s.data.foldl (fun n c => n * 10 + (c.toNat - 48)) 0

/-- Python string comparison `a <= b`: lexicographic on code points. -/
def lexLE : List Char → List Char → Bool
  | [], _ => true
  | _ :: _, [] => false
  | a :: as, b :: bs => a.toNat < b.toNat || (a.toNat == b.toNat && lexLE as bs)

/-- Python `str.replace('<br>', ' ')`: left-to-right, non-overlapping. -/
def replaceBr : List Char → List Char
  | '<' :: 'b' :: 'r' :: '>' :: rest => ' ' :: replaceBr rest
  | c :: rest => c :: replaceBr rest
  | [] => []

/-- Python `str.splitlines()` (newline-separated; the diagram text uses `\n`,
and a stray `\r` is removed by the subsequent `strip()`): no entry for a
trailing newline, and the empty string yields no lines. -/
def pySplitGo : List Char → List Char → List (List Char)
  | [], acc => [acc]
  | ['\n'], acc => [acc]
  | '\n' :: c :: rest, acc => acc :: pySplitGo (c :: rest) []
  | c :: rest, acc => pySplitGo rest (acc ++ [c])

/-- Python `str.splitlines()`. -/
def pySplitlines (s : List Char) : List (List Char) :=
  if s.isEmpty then [] else pySplitGo s []

/-! ### A small backtracking regex matcher

Each regular expression used by the script is a sequence of items, where an
item is a character class under one of the quantifiers actually occurring in
the patterns: exactly-one (also used for literal characters), `?` (greedy
optional), `*` greedy, and `*?` lazy.  `+` is encoded as exactly-one followed
by greedy `*`.  Groups are contiguous runs of items sharing a group index; the
captured text is the concatenation of the characters those items consume.
Matching follows the standard backtracking order (greedy prefers consuming,
lazy prefers not), which is Python `re` semantics for these patterns. -/

/-- Quantifier of a regex item. -/
inductive Quant
  | one
  | opt
  | starG
  | starL

/-- One item of a pattern: a character class, its quantifier, and the capture
group (if any) the consumed characters belong to. -/
structure RItem where
  cls : Char → Bool
  q : Quant
  grp : Option Nat

/-- Capture groups accumulated during a match (the patterns use at most 3). -/
structure Caps where
  g1 : List Char
  g2 : List Char
  g3 : List Char

/-- The empty capture record. -/
def Caps.empty : Caps := ⟨[], [], []⟩

/-- Append a consumed character to its capture group, if any. -/
def addCap (cs : Caps) (g : Option Nat) (c : Char) : Caps :=
  match g with
  | none => cs
  | some 1 => { cs with g1 := cs.g1 ++ [c] }
  | some 2 => { cs with g2 := cs.g2 ++ [c] }
  | some 3 => { cs with g3 := cs.g3 ++ [c] }
  | some _ => cs

/-- Backtracking matcher, anchored at the start of `s`; on success returns the
captures and the unconsumed remainder.  The `fuel` argument only serves to make
the recursion structural: every recursive call strictly decreases
`s.length + items.length`, so with initial fuel `s.length + items.length + 1`
(as passed by `pmatchRun`) the fuel is never exhausted. -/
def pmatch : Nat → List RItem → List Char → Caps → Option (Caps × List Char)
  | 0, _, _, _ => none
  | _ + 1, [], s, cs => some (cs, s)
  | n + 1, it :: rest, s, cs =>
    match it.q with
    | .one =>
      match s with
      | [] => none
      | c :: t => if it.cls c then pmatch n rest t (addCap cs it.grp c) else none
    | .opt =>
      match s with
      | [] => pmatch n rest [] cs
      | c :: t =>
        if it.cls c then
          match pmatch n rest t (addCap cs it.grp c) with
          | some r => some r
          | none => pmatch n rest s cs
        else pmatch n rest s cs
    | .starG =>
      match s with
      | [] => pmatch n rest [] cs
      | c :: t =>
        if it.cls c then
          match pmatch n (it :: rest) t (addCap cs it.grp c) with
          | some r => some r
          | none => pmatch n rest s cs
        else pmatch n rest s cs
    | .starL =>
      match s with
      | [] => pmatch n rest [] cs
      | c :: t =>
        match pmatch n rest s cs with
        | some r => some r
        | none => if it.cls c then pmatch n (it :: rest) t (addCap cs it.grp c) else none

/-- Python `re.match(pattern, s)`: anchored at position 0. -/
def pmatchRun (items : List RItem) (s : List Char) : Option Caps :=
  (pmatch (s.length + items.length + 1) items s Caps.empty).map Prod.fst

/-- Python `re.search(pattern, s)`: the match at the leftmost feasible start. -/
def psearch (items : List RItem) : List Char → Option Caps
  | [] => pmatchRun items []
  | c :: t =>
    match pmatchRun items (c :: t) with
    | some cs => some cs
    | none => psearch items t

/-! ### The concrete patterns of the script -/

/-- Class `\S` (non-whitespace). -/
def nonSpace (c : Char) : Bool := !isPySpace c

/-- Class `.` (any character except newline). -/
def dotC (c : Char) : Bool := !(c == '\n')

/-- Class `[a-zA-Z0-9_\-]` (identifier characters of the node patterns). -/
def idCls (c : Char) : Bool := c.isAlpha || c.isDigit || c == '_' || c == '-'

/-- Class `[a-z]` (lowercase letters, for the classifier's person pattern). -/
def lowAlpha (c : Char) : Bool := 97 ≤ c.toNat && c.toNat ≤ 122

/-- A literal character, as a regex item. -/
def lit (c : Char) : RItem := ⟨(· == c), .one, none⟩

/-- `re` pattern `(\S+)\s*--\|?(.*?)\|?-->\s*(\S+)` used for edge lines. -/
def edgePat : List RItem :=
  [⟨nonSpace, .one, some 1⟩, ⟨nonSpace, .starG, some 1⟩,
   ⟨isPySpace, .starG, none⟩,
   lit '-', lit '-',
   ⟨(· == '|'), .opt, none⟩,
   ⟨dotC, .starL, some 2⟩,
   ⟨(· == '|'), .opt, none⟩,
   lit '-', lit '-', lit '>',
   ⟨isPySpace, .starG, none⟩,
   ⟨nonSpace, .one, some 3⟩, ⟨nonSpace, .starG, some 3⟩]

/-- Node pattern 1: `([a-zA-Z0-9_\-]+)\s*\(\((.*?)\)\)`. -/
def nodePat1 : List RItem :=
  [⟨idCls, .one, some 1⟩, ⟨idCls, .starG, some 1⟩, ⟨isPySpace, .starG, none⟩,
   lit '(', lit '(', ⟨dotC, .starL, some 2⟩, lit ')', lit ')']

/-- Node pattern 2: `([a-zA-Z0-9_\-]+)\(\[(.*?)\]\)`. -/
def nodePat2 : List RItem :=
  [⟨idCls, .one, some 1⟩, ⟨idCls, .starG, some 1⟩,
   lit '(', lit '[', ⟨dotC, .starL, some 2⟩, lit ']', lit ')']

/-- Node pattern 3: `([a-zA-Z0-9_\-]+)\[(.*?)\]`. -/
def nodePat3 : List RItem :=
  [⟨idCls, .one, some 1⟩, ⟨idCls, .starG, some 1⟩,
   lit '[', ⟨dotC, .starL, some 2⟩, lit ']']

/-- Node pattern 4: `([a-zA-Z0-9_\-]+)\{(.*?)\}`. -/
def nodePat4 : List RItem :=
  [⟨idCls, .one, some 1⟩, ⟨idCls, .starG, some 1⟩,
   lit '\x7b', ⟨dotC, .starL, some 2⟩, lit '\x7d']

/-- Node pattern 5: `([a-zA-Z0-9_\-]+)>\s*(.*?)\]`. -/
def nodePat5 : List RItem :=
  [⟨idCls, .one, some 1⟩, ⟨idCls, .starG, some 1⟩,
   lit '>', ⟨isPySpace, .starG, none⟩, ⟨dotC, .starL, some 2⟩, lit ']']

/-- Node pattern 6: `(user[a-zA-Z]+[a-zA-Z0-9_\-]*)\((.*?)\)` — the literal
`user` and the following runs all belong to capture group 1. -/
def nodePat6 : List RItem :=
  [⟨(· == 'u'), .one, some 1⟩, ⟨(· == 's'), .one, some 1⟩,
   ⟨(· == 'e'), .one, some 1⟩, ⟨(· == 'r'), .one, some 1⟩,
   ⟨Char.isAlpha, .one, some 1⟩, ⟨Char.isAlpha, .starG, some 1⟩,
   ⟨idCls, .starG, some 1⟩,
   lit '(', ⟨dotC, .starL, some 2⟩, lit ')']

/-- The six node-shape patterns, in the priority order of the source. -/
def nodePatterns : List (List RItem) :=
  [nodePat1, nodePat2, nodePat3, nodePat4, nodePat5, nodePat6]

/-- The classifier's `re.match(r"[a-z]+\s+[a-z]+", label)` pattern. -/
def personPat : List RItem :=
  [⟨lowAlpha, .one, none⟩, ⟨lowAlpha, .starG, none⟩,
   ⟨isPySpace, .one, none⟩, ⟨isPySpace, .starG, none⟩,
   ⟨lowAlpha, .one, none⟩, ⟨lowAlpha, .starG, none⟩]

/-- The queue renderer's `re.match(r"[A-Za-z]+\s+[A-Za-z]+", label)` pattern. -/
def namePat : List RItem :=
  [⟨Char.isAlpha, .one, none⟩, ⟨Char.isAlpha, .starG, none⟩,
   ⟨isPySpace, .one, none⟩, ⟨isPySpace, .starG, none⟩,
   ⟨Char.isAlpha, .one, none⟩, ⟨Char.isAlpha, .starG, none⟩]

/-! ### Tokenizer (`extract_nodes_edges`) -/

/-- Hex digit or hyphen, for the bare 36-character identifier check. -/
def hexOrDash (c : Char) : Bool :=
  c.isDigit || (97 ≤ c.toNat && c.toNat ≤ 102) || (65 ≤ c.toNat && c.toNat ≤ 70) || c == '-'

/-- `re.fullmatch(r'[0-9a-fA-F\-]{36}', s)`: exactly 36 hex-or-hyphen chars. -/
def isUuid36 (s : List Char) : Bool :=
  s.length == 36 && s.all hexOrDash

/-- The connector gate `any(op in stripped for op in ['-->', '-.->', '---'])`. -/
def containsConnector (s : List Char) : Bool :=
  listContainsSub "-->".data s || listContainsSub "-.->".data s ||
    listContainsSub "---".data s

/-- Attempt the edge pattern on a stripped line; returns the three groups
(source, label, destination). -/
def edgeMatch (s : List Char) : Option (List Char × List Char × List Char) :=
  (pmatchRun edgePat s).map fun cs => (cs.g1, cs.g2, cs.g3)

/-- Node-shape search: try the six patterns in priority order, each with
`re.search`; the first that matches wins, yielding groups 1 and 2. -/
def nodeSearch (s : List Char) : Option (List Char × List Char) :=
  match psearch nodePat1 s with
  | some cs => some (cs.g1, cs.g2)
  | none =>
    match psearch nodePat2 s with
    | some cs => some (cs.g1, cs.g2)
    | none =>
      match psearch nodePat3 s with
      | some cs => some (cs.g1, cs.g2)
      | none =>
        match psearch nodePat4 s with
        | some cs => some (cs.g1, cs.g2)
        | none =>
          match psearch nodePat5 s with
          | some cs => some (cs.g1, cs.g2)
          | none =>
            match psearch nodePat6 s with
            | some cs => some (cs.g1, cs.g2)
            | none => none

/-- A node entry: identifier and label. -/
abbrev NodeEntry := String × String

/-- An edge: (source, label, destination). -/
abbrev Edge := String × String × String

/-- Python-dict insertion: overwrite in place if the key exists (keeping its
original insertion position), otherwise append at the end. -/
def dictInsert : List NodeEntry → String → String → List NodeEntry
  | [], k, v => [(k, v)]
  | (k', v') :: rest, k, v =>
    if k' = k then (k, v) :: rest else (k', v') :: dictInsert rest k v

/-- `nodes.get(k, d)`: the label of `k`, or the default `d`. -/
def dictGetD (nodes : List NodeEntry) (k d : String) : String :=
  match nodes.find? (fun kv => kv.1 = k) with
  | some kv => kv.2
  | none => d

/-- `nodes.values()` in insertion order. -/
def dictValues (nodes : List NodeEntry) : List String :=
  nodes.map Prod.snd

/-- Tokenizer state: the node table, the edge list, and the unmatched lines. -/
structure TokAcc where
  nodes : List NodeEntry
  edges : List Edge
  unmatched : List String

/-- Did the edge attempt or the node-shape attempt succeed on this stripped
line? (the source's `matched` flag before the 36-character fallback). -/
def lineShapeMatched (stripped : List Char) : Bool :=
  (containsConnector stripped && (edgeMatch stripped).isSome) ||
    (nodeSearch stripped).isSome

/-- `matched` after all three attempts of the source's per-line loop. -/
def lineMatched (stripped : List Char) : Bool :=
  lineShapeMatched stripped || isUuid36 stripped

/-- The edge attempt of the per-line loop: behind the connector gate, a
successful match of the edge pattern appends one `(src, label, dst)` edge,
each component stripped. -/
def edgeStep (st : TokAcc) (stripped : List Char) : TokAcc :=
  if containsConnector stripped then
    match edgeMatch stripped with
    | some (src, lbl, dst) =>
      { st with edges := st.edges ++
          [(⟨pyStrip src⟩, ⟨pyStrip lbl⟩, ⟨pyStrip dst⟩)] }
    | none => st
  else st

/-- The node-shape attempt of the per-line loop: the first matching pattern's
captures populate (overwrite) the node table, with `<br>` normalized to a
space and the text stripped. -/
def nodeStep (st : TokAcc) (stripped : List Char) : TokAcc :=
  match nodeSearch stripped with
  | some (id, txt) =>
    { st with nodes := dictInsert st.nodes ⟨id⟩ ⟨pyStrip (replaceBr txt)⟩ }
  | none => st

/-- One iteration of the tokenizer's per-line loop: blank lines are skipped;
the edge attempt and the node-shape attempt run independently; a bare
36-character identifier is registered as a node with empty label; anything
else is recorded as an unmatched line. -/
def processLine (st : TokAcc) (line : List Char) : TokAcc :=
  let stripped := pyStrip line
  if stripped.isEmpty then st
  else
    let st2 := nodeStep (edgeStep st stripped) stripped
    if lineShapeMatched stripped then st2
    else if isUuid36 stripped then
      { st2 with nodes := dictInsert st2.nodes ⟨stripped⟩ "" }
    else { st2 with unmatched := st2.unmatched ++ [⟨stripped⟩] }

/-- `extract_nodes_edges`: the node table, the edge list, and the unmatched
lines, from the raw diagram text. -/
def extract_nodes_edges (mermaid_code : String) :
    List NodeEntry × List Edge × List String :=
  let st := (pySplitlines mermaid_code.data).foldl processLine ⟨[], [], []⟩
  (st.nodes, st.edges, st.unmatched)

/-! ### Classifier (`categorize_target`) -/

/-- `categorize_target`: lowercase the label, then first match in the fixed
priority order of the source's `if`/`elif` chain. -/
def categorize_target (label : String) : String :=
  let l := pyLower label
  if strContains l "voicemail" then "📩 Voicemail"
  else if strContains l "greeting" then "📩 Greeting"
  else if strContains l "directory" then "🔂 Directory"
  else if strContains l "queue" then "🔁 Call Queue"
  else if strContains l "transfer" || strContains l "external" ||
      strContains l "forward" then "📞 External Transfer"
  else if (pmatchRun personPat l.data).isSome then "🧑 Person"
  else "❓ Unknown"

/-! ### Renderers -/

/-- A keypress entry of the flat menu listing:
(key, target label, target type, destination id). -/
abbrev KPEntry := String × String × String × String

/-- The keypress sort of the source:
`keypress_map.sort(key=lambda x: int(x[0]) if x[0].isdigit() else x[0])`
wrapped in `try`, with `keypress_map.sort(key=lambda x: x[0])` in the bare
`except`.  When every key is a digit string the numeric sort succeeds; when a
numeric and a non-numeric key are both present, comparing an `int` key with a
`str` key raises `TypeError` and the fallback sorts by the key string (Python's
sort is stable, as is `List.mergeSort`; the interrupted first sort only
permutes entries whose key strings can be equal, so sorting the original list
is extensionally the same). -/
def sortKeypressMap (m : List KPEntry) : List KPEntry :=
  if m.all (fun x => pyIsDigitStr x.1) then
    m.mergeSort (fun a b => strToNat a.1 ≤ strToNat b.1)
  else
    m.mergeSort (fun a b => lexLE a.1.data b.1.data)

/-- Build the keypress map of a menu node: the labeled outgoing edges of
`node_id`, each with its destination's label and category. -/
def keypressMapOf (node_id : String) (nodes : List NodeEntry) (edges : List Edge) :
    List KPEntry :=
  (edges.filterMap fun e =>
    if e.1 = node_id ∧ e.2.1 ≠ "" then some (e.2.1, e.2.2) else none).map
    fun kd =>
      let target_label := dictGetD nodes kd.2 kd.2
      (kd.1, target_label, categorize_target target_label, kd.2)

/-- `parse_menu_branch`: the keypress lines of one menu node. -/
def parse_menu_branch (start_id : String) (nodes : List NodeEntry)
    (edges : List Edge) : String :=
  let keypress_map := keypressMapOf start_id nodes edges
  if keypress_map.isEmpty then ""
  else
    String.intercalate "\n" ((sortKeypressMap keypress_map).map fun entry =>
      "- Press `" ++ entry.1 ++ "` → " ++ entry.2.1 ++ " (" ++ entry.2.2.1 ++ ")")

/-- The indentation of a nested menu block:
`"\n".join("    " + line if line.strip() else "" for line in nested.splitlines())`. -/
def indentBlock (nested : String) : String :=
  String.intercalate "\n" ((pySplitlines nested.data).map fun line =>
    if (pyStrip line).isEmpty then "" else "    " ++ String.mk line)

/-- `condition_branches`: group the labeled edges by source, in first-occurrence
order of the source id (`setdefault(src, []).append((label, dst))`). -/
def addBranch (m : List (String × List (String × String))) (src : String)
    (lv : String × String) : List (String × List (String × String)) :=
  match m with
  | [] => [(src, [lv])]
  | (k, vs) :: rest =>
    if k = src then (k, vs ++ [lv]) :: rest else (k, vs) :: addBranch rest src lv

/-- The grouped labeled edges of the conditional-branch section. -/
def conditionBranches (edges : List Edge) : List (String × List (String × String)) :=
  edges.foldl (fun m e => if e.2.1 = "" then m else addBranch m e.1 (e.2.1, e.2.2)) []

/-- `parse_auto_attendant`: the menu-tree renderer. -/
def parse_auto_attendant (nodes : List NodeEntry) (edges : List Edge) : String :=
  let md0 := ["# 🤖 Auto Attendant Call Flow\n"]
  let incoming := (dictValues nodes).filter (fun v => strContains v "Incoming Call")
  let md1 :=
    if incoming.isEmpty then md0
    else md0 ++ ["## 📞 Entry Points"] ++ incoming.map (fun i => "- " ++ i)
  let md2 := md1 ++ (conditionBranches edges).foldl (fun acc sb =>
    if sb.2.length ≥ 2 then
      acc ++ ["\n### 🔀 Conditional: " ++ dictGetD nodes sb.1 sb.1] ++
        sb.2.foldl (fun a ld =>
          let dst_label := dictGetD nodes ld.2 ld.2
          let dst_type := categorize_target dst_label
          let base := a ++
            ["- **" ++ ld.1 ++ "** → " ++ dst_label ++ " (" ++ dst_type ++ ")"]
          if strContains dst_label "Menu" || strContains dst_label "Press" then
            base ++ [indentBlock (parse_menu_branch ld.2 nodes edges)]
          else base) []
    else acc) []
  let menus := nodes.filter (fun kv => strContains kv.2 "Menu" || strContains kv.2 "Press")
  let md3 :=
    if menus.isEmpty then md2
    else md2 ++ ["\n## 🔘 Main Menu Options"] ++ menus.foldl (fun acc kv =>
      let keypress_map := keypressMapOf kv.1 nodes edges
      if keypress_map.isEmpty then
        acc ++ ["- " ++ kv.2 ++ " (No keypress options found)"]
      else
        acc ++ (sortKeypressMap keypress_map).foldl (fun a entry =>
          let base := a ++
            ["- Press `" ++ entry.1 ++ "` → " ++ entry.2.1 ++ " (" ++ entry.2.2.1 ++ ")"]
          if strContains entry.2.1 "Menu" || strContains entry.2.1 "Press" then
            base ++ [indentBlock (parse_menu_branch entry.2.2.2 nodes edges)]
          else base) []) []
  let vms := nodes.filter (fun kv => strContains kv.2 "Voicemail" || strContains kv.2 "Greeting")
  let md4 :=
    if vms.isEmpty then md3
    else md3 ++ ["\n## 📩 Voicemail Destinations"] ++
      vms.map (fun kv => "- " ++ kv.2 ++ " (" ++ kv.1 ++ ")")
  String.intercalate "\n" md4

/-- The first node entry whose label contains "Active Calls?" — the overflow
check of the queue renderer (the source's `for ... break` loop). -/
def overflowNode (nodes : List NodeEntry) : Option NodeEntry :=
  nodes.find? (fun kv => strContains kv.2 "Active Calls?")

/-- The first edge out of `k` whose lowercased label is exactly `"yes"`. -/
def overflowYes (edges : List Edge) (k : String) : Option Edge :=
  edges.find? (fun e => e.1 = k ∧ pyLower e.2.1 = "yes")

/-- The first edge out of `k` whose lowercased label is exactly `"no"`. -/
def overflowNo (edges : List Edge) (k : String) : Option Edge :=
  edges.find? (fun e => e.1 = k ∧ pyLower e.2.1 = "no")

/-- `get_target_label`. -/
def get_target_label (target : String) (nodes : List NodeEntry) : String :=
  dictGetD nodes target target

/-- `parse_call_queue`: the queue renderer. -/
def parse_call_queue (nodes : List NodeEntry) (edges : List Edge) : String :=
  let name :=
    match (dictValues nodes).find? (fun label => strContains label "Call Queue") with
    | some n => n
    | none => "Call Queue"
  let md0 := ["# 📞 " ++ name ++ "\n"]
  let md1 := md0 ++
    (match overflowNode nodes with
     | none => []
     | some kv =>
       ["## 🔁 Overflow Condition\n- **Check**: " ++ kv.2] ++
       (match overflowYes edges kv.1 with
        | some e => ["- **Yes** → " ++ get_target_label e.2.2 nodes]
        | none => []) ++
       (match overflowNo edges kv.1 with
        | some _ => ["- **No** → Routing continues"]
        | none => []))
  let routing := (dictValues nodes).filter (fun v => strContains v "Routing Method")
  let md2 := md1 ++
    (match routing with
     | r :: _ => ["\n## 🧽 Routing Method\n- " ++ r]
     | [] => [])
  let timeouts := (dictValues nodes).filter (fun v => strContains v "Timeout")
  let md3 := md2 ++
    (match timeouts with
     | t :: _ => ["\n## ⏱ Timeout\n- " ++ t]
     | [] => [])
  let settings := (dictValues nodes).filter (fun v => strContains v "Music On Hold")
  let md4 := md3 ++
    (match settings with
     | s :: _ => ["\n## ⚙️ Queue Settings\n- " ++ s]
     | [] => [])
  let agent_list := (dictValues nodes).filter (fun v => strContains v "Agent List Type")
  let md5 := md4 ++
    (match agent_list with
     | a :: _ =>
       let agents := (dictValues nodes).filter (fun label =>
         (pmatchRun namePat label.data).isSome && !(strContains label "Voicemail"))
       ["\n## 👥 Agent List" ++ "\n- " ++ a ++
         String.join (agents.map (fun label => "\n  - " ++ label))]
     | [] => [])
  let md6 := md5 ++ ["\n## 🔄 Agent Result Logic"]
  let md7 := md6 ++
    (if (dictValues nodes).any (fun v => strContains v "Agent Answered?") then
      ["- If agent answers → Call connected",
       "- If not answered → Timeout transfer to voicemail"]
     else [])
  let md8 := md7 ++
    (if (dictValues nodes).any (fun v => strContains v "Agent Available?") then
      ["- If no agent available → Transfer to voicemail"]
     else [])
  String.intercalate "\n" md8

/-! ### Flow-type detector and per-document pipeline -/

/-- The flow-type detector and renderer dispatch of
`generate_markdown_from_html` (case-sensitive substring checks, as in the
source). -/
def renderDocument (nodes : List NodeEntry) (edges : List Edge) : String :=
  if (dictValues nodes).any (fun v => strContains v "Menu" || strContains v "Press") then
    parse_auto_attendant nodes edges
  else if (dictValues nodes).any (fun v => strContains v "Call Queue" || strContains v "Agent") then
    parse_call_queue nodes edges
  else "# 🚧 Unsupported call flow format."

/-- The per-document pipeline of `generate_markdown_from_html`.  The diagram
extractor (`extract_mermaid_code`, which reads the HTML file with
BeautifulSoup) is external I/O; it is modelled by the `Option String` input:
`none` when no `language-mermaid` code block exists, in which case the source
raises and the surrounding `try`/`except` reports the failure for this one
document.  Every other input produces a rendered document. -/
def generate_markdown_from_html (mermaid : Option String) : Except String String :=
  match mermaid with
  | none => Except.error "No Mermaid code block found"
  | some code =>
    Except.ok (renderDocument (extract_nodes_edges code).1 (extract_nodes_edges code).2.1)

/-! ### Resolution Engine (spec §4.3)

The Resolution Engine (`resolve_final_label`, `resolve_final_target`) is part
of the flow-graph core described by the specification but is not present in the
repository's source file; the definitions below are modelled from the
specification's §4.3. -/

/-- Modelled from the spec: a bare phone number is "10+ digits, optional
leading `+1`" (part of the terminal-label test of Policy A; the function
itself is absent from the source file). -/
def isPhoneNumber (s : String) : Bool :=
  let t := if listStartsWith "+1".data s.data then s.data.drop 2 else s.data
  decide (10 ≤ t.length) && !t.isEmpty && t.all Char.isDigit

/-- Modelled from the spec: the "36-character identifier pattern" of Policy A's
terminal-label test — the same 36-character hex-and-hyphen shape the tokenizer
recognises (the function itself is absent from the source file). -/
def isIdentifier36 (s : String) : Bool :=
  isUuid36 s.data

/-- Modelled from the spec: a label is terminal if it matches a
bracket-delimited terminal-node convention (it is enclosed in square
brackets), OR it is non-empty and looks neither like a bare phone number nor
like a 36-character identifier (the function itself is absent from the source
file). -/
def isTerminalLabel (l : String) : Bool :=
  (listStartsWith "[".data l.data && listStartsWith "]".data l.data.reverse) ||
    (!l.data.isEmpty && !isPhoneNumber l && !isIdentifier36 l)

/-- All node-id occurrences of a graph: node-table keys and edge endpoints.
Its length bounds how many distinct unvisited ids a resolution walk can add. -/
def graphIds (nodes : List NodeEntry) (edges : List Edge) : List String :=
  nodes.map Prod.fst ++ edges.map (fun e => e.1) ++ edges.map (fun e => e.2.2)

/-- The first result of a depth-first branch list that is not "no result". -/
def firstHit : List String → String
  | [] => "no result"
  | r :: rs => if r = "no result" then firstHit rs else r

/-- Modelled from the spec: Policy A — label-priority resolution (the function
`resolve_final_label` is absent from the source file).  A node already visited
in the current walk returns "no result" for that branch; otherwise, if the
node's label (falling back to the id itself) is terminal it is returned;
otherwise the outgoing edges are explored depth-first in declaration order and
the first non-"no result" answer wins.  The structural `fuel` argument only
bounds recursion depth: every recursive step adds a previously-unvisited node
id to `visited`, and all ids reached through edges occur in
`graphIds nodes edges`, so the initial fuel `(graphIds nodes edges).length + 1`
passed by `resolve_final_label` is never exhausted. -/
def resolveAGo (nodes : List NodeEntry) (edges : List Edge) :
    Nat → String → List String → String
  | 0, _, _ => "no result"
  | fuel + 1, id, visited =>
    if id ∈ visited then "no result"
    else
      let lbl := dictGetD nodes id id
      if isTerminalLabel lbl then lbl
      else
        firstHit ((edges.filter (fun e => e.1 = id)).map
          (fun e => resolveAGo nodes edges fuel e.2.2 (id :: visited)))

/-- Modelled from the spec: `resolve_final_label`, Policy A at an empty
visited set (the function is absent from the source file). -/
def resolve_final_label (nodes : List NodeEntry) (edges : List Edge)
    (id : String) : String :=
  resolveAGo nodes edges ((graphIds nodes edges).length + 1) id []

/-- Modelled from the spec: the continuation step of Policy B — the single
outgoing edge (first in declaration order) whose label is not a bare numeric
keypress value (the function is absent from the source file). -/
def findCont (edges : List Edge) (id : String) : Option String :=
  (edges.find? (fun e => e.1 = id && !pyIsDigitStr e.2.1)).map (fun e => e.2.2)

/-- Modelled from the spec: the hop loop of Policy B — follow continuation
edges, stopping when no such edge exists, when the next node was already seen
(cycle), or when the hop budget is exhausted (the function is absent from the
source file). -/
def resolveBGo (edges : List Edge) : Nat → String → List String → String
  | 0, id, _ => id
  | n + 1, id, seen =>
    match findCont edges id with
    | none => id
    | some nxt => if nxt ∈ seen then id else resolveBGo edges n nxt (nxt :: seen)

/-- Modelled from the spec: `resolve_final_target`, Policy B with the maximum
hop bound 10 (the function is absent from the source file). -/
def resolve_final_target (edges : List Edge) (id : String) : String :=
  resolveBGo edges 10 id [id]

/-- `ContReach edges a b k`: node `b` is reached from `a` by following exactly
`k` continuation steps of Policy B. -/
inductive ContReach (edges : List Edge) : String → String → Nat → Prop
  | refl (a : String) : ContReach edges a a 0
  | step {a b c : String} {k : Nat} :
      findCont edges a = some b → ContReach edges b c k → ContReach edges a c (k + 1)

/-! ### Helper lemmas -/

/-- `lexLE` is total. -/
theorem lexLE_total : ∀ (a b : List Char), (lexLE a b || lexLE b a) = true := by
  intro a
  induction a with
  | nil => intro b; cases b <;> simp [lexLE]
  | cons x xs ih =>
    intro b
    cases b with
    | nil => simp [lexLE]
    | cons y ys =>
      simp only [lexLE, Bool.or_eq_true, Bool.and_eq_true, decide_eq_true_eq,
        beq_iff_eq]
      rcases Nat.lt_trichotomy x.toNat y.toNat with h | h | h
      · exact Or.inl (Or.inl h)
      · rcases Bool.or_eq_true .. ▸ ih ys with h' | h'
        · exact Or.inl (Or.inr ⟨h, h'⟩)
        · exact Or.inr (Or.inr ⟨h.symm, h'⟩)
      · exact Or.inr (Or.inl h)

/-- `lexLE` is transitive. -/
theorem lexLE_trans : ∀ (a b c : List Char),
    lexLE a b = true → lexLE b c = true → lexLE a c = true := by
  intro a
  induction a with
  | nil => intro b c _ _; cases c <;> cases b <;> simp_all [lexLE]
  | cons x xs ih =>
    intro b c hab hbc
    cases b with
    | nil => simp [lexLE] at hab
    | cons y ys =>
      cases c with
      | nil => simp [lexLE] at hbc
      | cons z zs =>
        simp only [lexLE, Bool.or_eq_true, Bool.and_eq_true, decide_eq_true_eq,
          beq_iff_eq] at hab hbc ⊢
        rcases hab with h1 | ⟨h1, h1'⟩ <;> rcases hbc with h2 | ⟨h2, h2'⟩
        · exact Or.inl (Nat.lt_trans h1 h2)
        · exact Or.inl (h2 ▸ h1)
        · exact Or.inl (h1 ▸ h2)
        · exact Or.inr ⟨h1.trans h2, ih ys zs h1' h2'⟩

/-- `List.find?` returns the first element satisfying the predicate: the
element satisfies it, and every element before it refutes it. -/
theorem find?_first {α : Type} (p : α → Bool) :
    ∀ (l : List α) (x : α), l.find? p = some x →
      p x = true ∧ ∃ pre post, l = pre ++ x :: post ∧ ∀ y ∈ pre, p y = false := by
  intro l
  induction l with
  | nil => intro x h; cases h
  | cons a as ih =>
    intro x h
    by_cases ha : p a = true
    · rw [List.find?_cons_of_pos _ ha] at h
      cases h
      exact ⟨ha, [], as, rfl, by simp⟩
    · rw [List.find?_cons_of_neg _ ha] at h
      obtain ⟨hx, pre, post, heq, hpre⟩ := ih x h
      refine ⟨hx, a :: pre, post, by simp [heq], ?_⟩
      intro y hy
      rcases List.mem_cons.mp hy with rfl | hy
      · exact Bool.not_eq_true _ ▸ ha
      · exact hpre y hy

/-- The edge attempt changes neither the node table nor the unmatched list. -/
theorem edgeStep_nodes (st : TokAcc) (s : List Char) :
    (edgeStep st s).nodes = st.nodes := by
  unfold edgeStep
  split
  · split <;> rfl
  · rfl

/-- The edge attempt changes neither the node table nor the unmatched list. -/
theorem edgeStep_unmatched (st : TokAcc) (s : List Char) :
    (edgeStep st s).unmatched = st.unmatched := by
  unfold edgeStep
  split
  · split <;> rfl
  · rfl

/-- The node-shape attempt leaves the unmatched list unchanged. -/
theorem nodeStep_unmatched (st : TokAcc) (s : List Char) :
    (nodeStep st s).unmatched = st.unmatched := by
  unfold nodeStep
  split <;> rfl

/-- The node-shape attempt registers at most one node. -/
theorem nodeStep_nodes (st : TokAcc) (s : List Char) :
    (nodeStep st s).nodes = st.nodes ∨
      ∃ k v, (nodeStep st s).nodes = dictInsert st.nodes k v := by
  unfold nodeStep
  split
  · exact Or.inr ⟨_, _, rfl⟩
  · exact Or.inl rfl

/-- If the node-shape attempt fails, the node table is unchanged. -/
theorem nodeStep_nodes_of_none (st : TokAcc) (s : List Char)
    (h : nodeSearch s = none) : (nodeStep st s).nodes = st.nodes := by
  unfold nodeStep
  rw [h]

/-- One tokenizer iteration either leaves the unmatched list unchanged or
appends exactly the stripped line. -/
theorem processLine_unmatched (st : TokAcc) (line : List Char) :
    (processLine st line).unmatched = st.unmatched ∨
      (processLine st line).unmatched = st.unmatched ++ [⟨pyStrip line⟩] := by
  have h2 : (nodeStep (edgeStep st (pyStrip line)) (pyStrip line)).unmatched
      = st.unmatched := by
    rw [nodeStep_unmatched, edgeStep_unmatched]
  simp only [processLine]
  split
  · exact Or.inl rfl
  · split
    · exact Or.inl h2
    · split
      · exact Or.inl h2
      · exact Or.inr (by simpa using h2)

/-- A line that is non-blank and matches nothing is appended to the unmatched
list. -/
theorem processLine_unmatched_of_nomatch (st : TokAcc) (line : List Char)
    (hne : (pyStrip line).isEmpty = false)
    (hm : lineMatched (pyStrip line) = false) :
    (processLine st line).unmatched = st.unmatched ++ [⟨pyStrip line⟩] := by
  have hsm : lineShapeMatched (pyStrip line) = false :=
    (Bool.or_eq_false_iff.mp hm).1
  have hu : isUuid36 (pyStrip line) = false := (Bool.or_eq_false_iff.mp hm).2
  simp only [processLine, hne, hsm, hu, Bool.false_eq_true, if_false]
  rw [nodeStep_unmatched, edgeStep_unmatched]

/-- Membership in the unmatched list is preserved by further iterations. -/
theorem processLine_unmatched_mem (st : TokAcc) (line : List Char) (x : String)
    (hx : x ∈ st.unmatched) : x ∈ (processLine st line).unmatched := by
  rcases processLine_unmatched st line with h | h <;> rw [h]
  · exact hx
  · exact List.mem_append_left _ hx

/-- Membership in the unmatched list is preserved by the whole fold. -/
theorem foldl_unmatched_mem (lines : List (List Char)) :
    ∀ (st : TokAcc) (x : String), x ∈ st.unmatched →
      x ∈ (lines.foldl processLine st).unmatched := by
  induction lines with
  | nil => intro st x hx; exact hx
  | cons l ls ih =>
    intro st x hx
    exact ih _ _ (processLine_unmatched_mem st l x hx)

/-- Every non-blank line of the input that matches no pattern ends up in the
unmatched list of the fold. -/
theorem foldl_unmatched_of_nomatch (lines : List (List Char)) :
    ∀ (st : TokAcc) (line : List Char), line ∈ lines →
      (pyStrip line).isEmpty = false → lineMatched (pyStrip line) = false →
      (⟨pyStrip line⟩ : String) ∈ (lines.foldl processLine st).unmatched := by
  induction lines with
  | nil => intro st line h; cases h
  | cons l ls ih =>
    intro st line hmem hne hm
    rw [List.foldl_cons]
    rcases List.mem_cons.mp hmem with rfl | hmem
    · apply foldl_unmatched_mem
      rw [processLine_unmatched_of_nomatch st line hne hm]
      exact List.mem_append_right _ (List.mem_singleton.mpr rfl)
    · exact ih _ line hmem hne hm

/-- `resolveBGo` only returns nodes reached by at most `n` continuation
steps. -/
theorem resolveBGo_reach (edges : List Edge) :
    ∀ (n : Nat) (id : String) (seen : List String),
      ∃ k, k ≤ n ∧ ContReach edges id (resolveBGo edges n id seen) k := by
  intro n
  induction n with
  | zero => intro id seen; exact ⟨0, Nat.le_refl 0, ContReach.refl id⟩
  | succ m ih =>
    intro id seen
    cases hf : findCont edges id with
    | none =>
      refine ⟨0, Nat.zero_le _, ?_⟩
      simp only [resolveBGo, hf]
      exact ContReach.refl id
    | some nxt =>
      by_cases hs : nxt ∈ seen
      · refine ⟨0, Nat.zero_le _, ?_⟩
        simp only [resolveBGo, hf, if_pos hs]
        exact ContReach.refl id
      · obtain ⟨k, hk, hr⟩ := ih nxt (nxt :: seen)
        refine ⟨k + 1, Nat.succ_le_succ hk, ?_⟩
        simp only [resolveBGo, hf, if_neg hs]
        exact ContReach.step hf hr

/-! ### The claims -/

/-- Claim C1: Policy A (`resolve_final_label`) never re-enters a node already
visited in the current walk — such a node immediately yields "no result" at
any recursion depth — and on the cyclic graph `A -> B -> A` in which no node
has a terminal label the resolution terminates and returns "no result". -/
theorem claim1_policyA_cycle_safety :
    (∀ (nodes : List NodeEntry) (edges : List Edge) (fuel : Nat) (id : String)
        (visited : List String), id ∈ visited →
        resolveAGo nodes edges fuel id visited = "no result") ∧
    resolve_final_label [("A", ""), ("B", "")]
      [("A", "", "B"), ("B", "", "A")] "A" = "no result" := by
  constructor
  · intro nodes edges fuel id visited h
    cases fuel with
    | zero => rfl
    | succ n => simp [resolveAGo, h]
  · decide

/-- Witness for C1: the cycle-safety statement at a concrete visited node. -/
theorem claim1_policyA_cycle_safety_witness :
    ("X" ∈ (["X"] : List String)) ∧
      resolveAGo [] [] 5 "X" ["X"] = "no result" :=
  ⟨by decide, claim1_policyA_cycle_safety.1 [] [] 5 "X" ["X"] (by decide)⟩

/-- Claim C2: Policy B (`resolve_final_target`) returns a node id reached from
the start by following continuation edges (the first outgoing edge whose label
is not a bare numeric keypress) for at most 10 hops, and on the self-loop
`A -> A` it halts and returns `A`. -/
theorem claim2_policyB_hop_bound :
    (∀ (edges : List Edge) (id : String), ∃ k, k ≤ 10 ∧
        ContReach edges id (resolve_final_target edges id) k) ∧
    resolve_final_target [("A", "", "A")] "A" = "A" := by
  constructor
  · intro edges id
    exact resolveBGo_reach edges 10 id [id]
  · decide

/-- Claim C3: the classifier returns exactly one of the seven categories by
first match in the fixed priority order; in particular the queue rule precedes
the transfer rule ("Sales Queue Transfer" is a CallQueue), "Jane Doe" is a
Person, and "Node42" is Unknown. -/
theorem claim3_classifier_priority :
    (∀ label : String, categorize_target label ∈
        ["📩 Voicemail", "📩 Greeting", "🔂 Directory", "🔁 Call Queue",
         "📞 External Transfer", "🧑 Person", "❓ Unknown"]) ∧
    (∀ label : String, strContains (pyLower label) "queue" = true →
        strContains (pyLower label) "voicemail" = false →
        strContains (pyLower label) "greeting" = false →
        strContains (pyLower label) "directory" = false →
        categorize_target label = "🔁 Call Queue") ∧
    categorize_target "Sales Queue Transfer" = "🔁 Call Queue" ∧
    categorize_target "Jane Doe" = "🧑 Person" ∧
    categorize_target "Node42" = "❓ Unknown" := by
  refine ⟨?_, ?_, by decide, by decide, by decide⟩
  · intro label
    simp only [categorize_target]
    split_ifs <;> simp
  · intro label hq hv hg hd
    simp [categorize_target, hq, hv, hg, hd]

/-- Witness for C3: the queue-over-transfer priority at a concrete label. -/
theorem claim3_classifier_priority_witness :
    strContains (pyLower "Queue transfer desk") "queue" = true ∧
    strContains (pyLower "Queue transfer desk") "voicemail" = false ∧
    strContains (pyLower "Queue transfer desk") "greeting" = false ∧
    strContains (pyLower "Queue transfer desk") "directory" = false ∧
    categorize_target "Queue transfer desk" = "🔁 Call Queue" :=
  ⟨by decide, by decide, by decide, by decide,
    claim3_classifier_priority.2.1 "Queue transfer desk"
      (by decide) (by decide) (by decide) (by decide)⟩

/-- Counterexample for C4: the label "Transfer Message" contains
"transfer message" (case-insensitively) and no "voicemail", yet the classifier
returns External Transfer, not Greeting — the code has no "transfer message"
rule in its Greeting branch. -/
theorem claim4_greeting_counterexample :
    strContains (pyLower "Transfer Message") "transfer message" = true ∧
    strContains (pyLower "Transfer Message") "voicemail" = false ∧
    categorize_target "Transfer Message" = "📞 External Transfer" ∧
    categorize_target "Transfer Message" ≠ "📩 Greeting" := by
  refine ⟨by decide, by decide, by decide, by decide⟩

/-- Claim C4 (amended): every label that contains "greeting" (the only needle
of the code's Greeting rule, matched case-insensitively) and does not contain
"voicemail" classifies as Greeting. -/
theorem claim4_greeting_amended :
    ∀ label : String, strContains (pyLower label) "greeting" = true →
      strContains (pyLower label) "voicemail" = false →
      categorize_target label = "📩 Greeting" := by
  intro label hg hv
  simp [categorize_target, hg, hv]

/-- Witness for C4 (amended): a concrete greeting label. -/
theorem claim4_greeting_amended_witness :
    strContains (pyLower "Welcome Greeting") "greeting" = true ∧
    strContains (pyLower "Welcome Greeting") "voicemail" = false ∧
    categorize_target "Welcome Greeting" = "📩 Greeting" :=
  ⟨by decide, by decide,
    claim4_greeting_amended "Welcome Greeting" (by decide) (by decide)⟩

/-- Counterexample for C5: the detector's substring checks are case-sensitive
(`"Menu" in v or "Press" in v`), so a node labeled "press 1" — which does
contain the lowercase "press" of the claim — selects no renderer: the output
is the unsupported-format placeholder, not the menu-tree document. -/
theorem claim5_detector_counterexample :
    strContains "press 1" "press" = true ∧
    renderDocument [("a", "press 1")] [] = "# 🚧 Unsupported call flow format." ∧
    renderDocument [("a", "press 1")] [] ≠ parse_auto_attendant [("a", "press 1")] [] := by
  refine ⟨by decide, by decide, by decide⟩

/-- Claim C5 (amended): the detector is case-sensitive — if any node label
contains "Menu" or "Press" the menu-tree renderer is applied; otherwise, if
any label contains "Call Queue" or "Agent", the queue renderer is applied;
otherwise the output is the "unsupported format" placeholder (a defined
value, not an error). -/
theorem claim5_detector_amended :
    ∀ (nodes : List NodeEntry) (edges : List Edge),
      ((dictValues nodes).any
          (fun v => strContains v "Menu" || strContains v "Press") = true →
        renderDocument nodes edges = parse_auto_attendant nodes edges) ∧
      ((dictValues nodes).any
          (fun v => strContains v "Menu" || strContains v "Press") = false →
        (dictValues nodes).any
          (fun v => strContains v "Call Queue" || strContains v "Agent") = true →
        renderDocument nodes edges = parse_call_queue nodes edges) ∧
      ((dictValues nodes).any
          (fun v => strContains v "Menu" || strContains v "Press") = false →
        (dictValues nodes).any
          (fun v => strContains v "Call Queue" || strContains v "Agent") = false →
        renderDocument nodes edges = "# 🚧 Unsupported call flow format.") := by
  intro nodes edges
  refine ⟨?_, ?_, ?_⟩
  · intro h
    simp [renderDocument, h]
  · intro h1 h2
    simp [renderDocument, h1, h2]
  · intro h1 h2
    simp [renderDocument, h1, h2]

/-- Witness for C5 (amended): a concrete menu diagram takes the menu-tree
renderer. -/
theorem claim5_detector_amended_witness :
    (dictValues [("m", "Main Menu")]).any
        (fun v => strContains v "Menu" || strContains v "Press") = true ∧
    renderDocument [("m", "Main Menu")] [] = parse_auto_attendant [("m", "Main Menu")] [] :=
  ⟨by decide, (claim5_detector_amended [("m", "Main Menu")] []).1 (by decide)⟩

/-- Claim C6: the tokenizer's edge pattern on the three connector forms of the
claim.  The labeled form `A --|x|--> B` appends exactly one edge, but the
plain form `A --> B` and the dotted form `A -.-> B` match no edge (the
pattern `(\S+)\s*--\|?(.*?)\|?-->\s*(\S+)` demands `--` before the optional
label and the literal `-->` after it) and are recorded as unmatched; the plain
form the regex does accept is `A ----> B`. -/
theorem claim6_edge_forms :
    (extract_nodes_edges "A --|x|--> B").2.1 = [("A", "x", "B")] ∧
    (extract_nodes_edges "A --> B").2.1 = [] ∧
    (extract_nodes_edges "A --> B").2.2 = ["A --> B"] ∧
    (extract_nodes_edges "A -.-> B").2.1 = [] ∧
    (extract_nodes_edges "A -.-> B").2.2 = ["A -.-> B"] ∧
    (extract_nodes_edges "A ----> B").2.1 = [("A", "", "B")] := by
  refine ⟨by decide, by decide, by decide, by decide, by decide, by decide⟩

/-- Claim C7: the flat menu listing's keypress entries are sorted ascending by
numeric value when all keys are digit strings, and lexicographically (by code
points, as Python compares strings) otherwise — the mixed case falls into the
bare `except` and re-sorts by the key string; the output is a permutation of
the keypress map. -/
theorem claim7_keypress_sort :
    ∀ m : List KPEntry,
      (m.all (fun x => pyIsDigitStr x.1) = true →
        List.Pairwise (fun a b : KPEntry => strToNat a.1 ≤ strToNat b.1)
          (sortKeypressMap m)) ∧
      (m.all (fun x => pyIsDigitStr x.1) = false →
        List.Pairwise (fun a b : KPEntry => lexLE a.1.data b.1.data = true)
          (sortKeypressMap m)) ∧
      (sortKeypressMap m).Perm m := by
  intro m
  refine ⟨?_, ?_, ?_⟩
  · intro h
    simp only [sortKeypressMap, h, if_pos]
    have := @List.sorted_mergeSort KPEntry
      (fun a b : KPEntry => decide (strToNat a.1 ≤ strToNat b.1))
      (fun a b c hab hbc => by
        simp only [decide_eq_true_eq] at hab hbc ⊢
        exact Nat.le_trans hab hbc)
      (fun a b => by
        simp only [Bool.or_eq_true, decide_eq_true_eq]
        exact Nat.le_total _ _) m
    refine this.imp ?_
    intro a b hab
    simpa using hab
  · intro h
    simp only [sortKeypressMap, h, Bool.false_eq_true, if_false]
    exact @List.sorted_mergeSort KPEntry
      (fun a b : KPEntry => lexLE a.1.data b.1.data)
      (fun a b c hab hbc => lexLE_trans _ _ _ hab hbc)
      (fun a b => lexLE_total _ _) m
  · unfold sortKeypressMap
    split <;> exact List.mergeSort_perm m _

/-- Witness for C7: the all-numeric branch at a concrete keypress map. -/
theorem claim7_keypress_sort_witness :
    ([("2", "b", "t", "d"), ("1", "a", "t", "d")] : List KPEntry).all
        (fun x => pyIsDigitStr x.1) = true ∧
    List.Pairwise (fun a b : KPEntry => strToNat a.1 ≤ strToNat b.1)
      (sortKeypressMap [("2", "b", "t", "d"), ("1", "a", "t", "d")]) :=
  ⟨by decide, (claim7_keypress_sort [("2", "b", "t", "d"), ("1", "a", "t", "d")]).1 (by decide)⟩

/-- Claim C8: the tokenizer is total and raises nothing — every non-blank line
of the input that matches neither the edge pattern, nor a node shape, nor the
36-character identifier form, is recorded in the returned unmatched list — and
the only hard failure of the per-document pipeline is the absence of a diagram
code block, which is contained per document: with a code block present the
pipeline always returns a rendered document. -/
theorem claim8_tokenizer_total :
    (∀ (code : String) (line : List Char), line ∈ pySplitlines code.data →
        (pyStrip line).isEmpty = false → lineMatched (pyStrip line) = false →
        (⟨pyStrip line⟩ : String) ∈ (extract_nodes_edges code).2.2) ∧
    generate_markdown_from_html none = Except.error "No Mermaid code block found" ∧
    (∀ code : String, ∃ md, generate_markdown_from_html (some code) = Except.ok md) := by
  refine ⟨?_, rfl, ?_⟩
  · intro code line hmem hne hm
    exact foldl_unmatched_of_nomatch (pySplitlines code.data) ⟨[], [], []⟩ line hmem hne hm
  · intro code
    exact ⟨_, rfl⟩

/-- Witness for C8: the line `!!!` of a concrete input matches nothing and is
recorded as unmatched. -/
theorem claim8_tokenizer_total_witness :
    (('!' :: '!' :: '!' :: []) ∈ pySplitlines ("a[X]\n!!!" : String).data) ∧
    (pyStrip ('!' :: '!' :: '!' :: [])).isEmpty = false ∧
    lineMatched (pyStrip ('!' :: '!' :: '!' :: [])) = false ∧
    (⟨pyStrip ('!' :: '!' :: '!' :: [])⟩ : String) ∈
      (extract_nodes_edges "a[X]\n!!!").2.2 :=
  ⟨by decide, by decide, by decide,
    claim8_tokenizer_total.1 "a[X]\n!!!" ('!' :: '!' :: '!' :: [])
      (by decide) (by decide) (by decide)⟩

/-- Counterexample for C9: on the claim's own example line `a[X] --> b[Y]` the
plain `-->` connector matches no edge pattern, so the edge list is empty and
the second identifier `b` does not appear as an edge endpoint at all (it
appears nowhere in the output). -/
theorem claim9_counterexample :
    (extract_nodes_edges "a[X] --> b[Y]").2.1 = [] ∧
    ¬ ∃ e ∈ (extract_nodes_edges "a[X] --> b[Y]").2.1,
        e.1 = "b" ∨ e.2.2 = "b" := by
  refine ⟨by decide, by decide⟩

/-- Claim C9 (amended): each tokenizer iteration registers at most one node —
the node table is unchanged or receives a single insertion (the first matching
pattern's first occurrence; the search stops at it) — and on
`a[X] --> b[Y]` only `("a", "X")` is recorded while the second identifier is
not registered (nor, the plain connector matching no edge pattern, does it
appear in any edge); with a labeled connector, `a[X] --|1|--> b[Y]`, the second
identifier appears only inside the raw edge-endpoint token `b[Y]`. -/
theorem claim9_one_node_per_line :
    (∀ (st : TokAcc) (line : List Char),
        (processLine st line).nodes = st.nodes ∨
        ∃ k v, (processLine st line).nodes = dictInsert st.nodes k v) ∧
    (extract_nodes_edges "a[X] --> b[Y]").1 = [("a", "X")] ∧
    (extract_nodes_edges "a[X] --> b[Y]").2.1 = [] ∧
    (extract_nodes_edges "a[X] --|1|--> b[Y]").1 = [("a", "X")] ∧
    (extract_nodes_edges "a[X] --|1|--> b[Y]").2.1 = [("a[X]", "1", "b[Y]")] := by
  refine ⟨?_, by decide, by decide, by decide, by decide⟩
  intro st line
  simp only [processLine]
  split
  · exact Or.inl rfl
  · split
    · rcases nodeStep_nodes (edgeStep st (pyStrip line)) (pyStrip line) with h | ⟨k, v, h⟩ <;>
        rw [h, edgeStep_nodes]
      · exact Or.inl rfl
      · exact Or.inr ⟨k, v, rfl⟩
    · split
      · rename_i hsm _
        have hnone : nodeSearch (pyStrip line) = none := by
          rcases h : nodeSearch (pyStrip line) with _ | p
          · rfl
          · exfalso
            have : lineShapeMatched (pyStrip line) = true := by
              simp [lineShapeMatched, h]
            simp_all
        refine Or.inr ⟨⟨pyStrip line⟩, "", ?_⟩
        show dictInsert (nodeStep (edgeStep st (pyStrip line)) (pyStrip line)).nodes _ _ = _
        rw [nodeStep_nodes_of_none _ _ hnone, edgeStep_nodes]
      · rcases nodeStep_nodes (edgeStep st (pyStrip line)) (pyStrip line) with h | ⟨k, v, h⟩
        · refine Or.inl ?_
          show (nodeStep (edgeStep st (pyStrip line)) (pyStrip line)).nodes = st.nodes
          rw [h, edgeStep_nodes]
        · refine Or.inr ⟨k, v, ?_⟩
          show (nodeStep (edgeStep st (pyStrip line)) (pyStrip line)).nodes
            = dictInsert st.nodes k v
          rw [h, edgeStep_nodes]

/-- Claim C10: the queue renderer's overflow branches are first-match
selections in edge declaration order with lowercased-label equality (so
"Yes", "YES", "yes" all match), and the overflow section is keyed off the
first node entry whose label contains "Active Calls?". -/
theorem claim10_overflow_selection :
    (∀ (edges : List Edge) (k : String) (e : Edge), overflowYes edges k = some e →
        e.1 = k ∧ pyLower e.2.1 = "yes" ∧
        ∃ pre post, edges = pre ++ e :: post ∧
          ∀ e' ∈ pre, ¬(e'.1 = k ∧ pyLower e'.2.1 = "yes")) ∧
    (∀ (edges : List Edge) (k : String) (e : Edge), overflowNo edges k = some e →
        e.1 = k ∧ pyLower e.2.1 = "no" ∧
        ∃ pre post, edges = pre ++ e :: post ∧
          ∀ e' ∈ pre, ¬(e'.1 = k ∧ pyLower e'.2.1 = "no")) ∧
    (pyLower "YES" = "yes" ∧ pyLower "Yes" = "yes") ∧
    (∀ (nodes : List NodeEntry) (kv : NodeEntry), overflowNode nodes = some kv →
        strContains kv.2 "Active Calls?" = true ∧
        ∃ pre post, nodes = pre ++ kv :: post ∧
          ∀ kv' ∈ pre, strContains kv'.2 "Active Calls?" = false) := by
  refine ⟨?_, ?_, ⟨by decide, by decide⟩, ?_⟩
  · intro edges k e h
    obtain ⟨hp, pre, post, heq, hpre⟩ := find?_first _ edges e h
    simp only [decide_eq_true_eq] at hp
    refine ⟨hp.1, hp.2, pre, post, heq, ?_⟩
    intro e' he'
    have := hpre e' he'
    simpa using this
  · intro edges k e h
    obtain ⟨hp, pre, post, heq, hpre⟩ := find?_first _ edges e h
    simp only [decide_eq_true_eq] at hp
    refine ⟨hp.1, hp.2, pre, post, heq, ?_⟩
    intro e' he'
    have := hpre e' he'
    simpa using this
  · intro nodes kv h
    obtain ⟨hp, pre, post, heq, hpre⟩ := find?_first _ nodes kv h
    exact ⟨hp, pre, post, heq, hpre⟩

/-- Witness for C10: the "Yes" selection at a concrete edge list with an
uppercase label. -/
theorem claim10_overflow_selection_witness :
    overflowYes [("chk", "skip", "x"), ("chk", "YES", "vm")] "chk"
        = some ("chk", "YES", "vm") ∧
    ("chk", "YES", "vm").1 = "chk" ∧ pyLower ("chk", "YES", "vm").2.1 = "yes" ∧
    ∃ pre post,
      ([("chk", "skip", "x"), ("chk", "YES", "vm")] : List Edge)
        = pre ++ ("chk", "YES", "vm") :: post ∧
      ∀ e' ∈ pre, ¬(e'.1 = "chk" ∧ pyLower e'.2.1 = "yes") :=
  ⟨by decide,
    claim10_overflow_selection.1 [("chk", "skip", "x"), ("chk", "YES", "vm")]
      "chk" ("chk", "YES", "vm") (by decide)⟩

end CallFlow
